import Mathlib

/-!
Shallow embedding of `src/python/ray/util/client/dataclient.py` (class
`DataClient`): a threaded request/response multiplexer over one
bidirectional gRPC stream.  Pure data is modelled directly; the mutable
instance state is a `DataClient` record threaded explicitly through each
operation; the concurrent read loop is modelled as a function of the
inbound response sequence and the way the stream ended.  Python dicts
(`ready_data`, `asyncio_waiting_data`) are association lists with
dict-faithful lookup/insert/delete; `queue.Queue` is a list where `none`
is the close sentinel (Python `None`); a callback that may raise is a
function into `Except String Unit`.
-/

namespace RayDataClient

/-- Model of a `ray_client_pb2.DataRequest` protobuf message: the mutable
`req_id` field plus an abstract payload standing for the oneof body. -/
structure DataRequest where
  req_id : Nat
  payload : String
deriving DecidableEq, Repr

/-- Model of a `ray_client_pb2.DataResponse` protobuf message. -/
structure DataResponse where
  req_id : Nat
  payload : String
deriving DecidableEq, Repr

/-- A response callback (`ResponseCallable`); invoking it may raise,
modelled as `Except.error` carrying the exception text. -/
def Callback : Type := DataResponse → Except String Unit

/-- `INT32_MAX = (2**31) - 1`, the maximum `req_id` field value. -/
def INT32_MAX : Nat := 2 ^ 31 - 1

/-- Dict lookup `d.get(k)` / `d[k]` on an association list. -/
def alookup {α : Type} (k : Nat) (l : List (Nat × α)) : Option α :=
  match l.find? (fun p => p.1 == k) with
  | some p => some p.2
  | none => none

/-- Dict deletion `del d[k]` (keys are unique in a Python dict, so
removing every pair with key `k` is faithful). -/
def aerase {α : Type} (k : Nat) (l : List (Nat × α)) : List (Nat × α) :=
  l.filter (fun p => p.1 != k)

/-- Dict assignment `d[k] = v`. -/
def ainsert {α : Type} (k : Nat) (v : α) (l : List (Nat × α)) : List (Nat × α) :=
  (k, v) :: aerase k l

/-- The mutable state of a `DataClient` instance.  Fields keep the Python
attribute names (leading underscores dropped).  The gRPC channel, stub and
metadata are external handles and carry no modelled state; the two
background threads are represented by their observable effects
(`data_thread_joined`, `keepalive_thread_joined`), `stop_keepalive` is the
`threading.Event`, and `disconnect_called` records whether
`ray.util.disconnect()` has been triggered. -/
structure DataClient where
  request_queue : List (Option DataRequest)
  ready_data : List (Nat × DataResponse)
  asyncio_waiting_data : List (Nat × Callback)
  req_id : Nat
  in_shutdown : Bool
  stop_keepalive : Bool
  client_id : String
  disconnect_called : Bool
  data_thread_joined : Bool
  keepalive_thread_joined : Bool

/-- `DataClient._next_id`: increment the counter, wrap to 1 past
`INT32_MAX`, return the new counter value (never 0, per the assert). -/
def DataClient.next_id (dc : DataClient) : Nat × DataClient :=
  let r0 := dc.req_id + 1
  let r := if r0 > INT32_MAX then 1 else r0
  (r, { dc with req_id := r })

/-- Events emitted on the send paths (used to state ordering claims). -/
inductive SendEvent where
  | callDisconnect
  | raiseConn (msg : String)
  | registerCallback (rid : Nat)
  | enqueueRequest (rid : Nat)
deriving DecidableEq, Repr

/-- gRPC status codes distinguished by the error handler of `_data_main`. -/
inductive StatusCode where
  | cancelled
  | unavailable
  | resourceExhausted
  | other
deriving DecidableEq, Repr

/-- How the inbound response stream terminated: the iterator raised a
`grpc.RpcError` with some status code, or it was exhausted without
raising (the stream completed cleanly). -/
inductive StreamEnd where
  | rpcError (code : StatusCode)
  | exhausted
deriving DecidableEq, Repr

/-- Events emitted by the read loop `_data_main`. -/
inductive REvent where
  | logUnawaited (rid : Nat)
  | callbackInvoked (rid : Nat)
  | callbackRaised (rid : Nat) (msg : String)
  | readyInserted (rid : Nat)
  | notifyAll
  | setShutdown
  | logInfo (msg : String)
  | logException (msg : String)
deriving DecidableEq, Repr

/-- Result of the dispatch phase of `_blocking_send` (up to and including
`self.request_queue.put(req)`). -/
inductive DispatchResult where
  | sent (rid : Nat) (st : DataClient)
  | failed (msg : String) (st : DataClient)

/-- Result of one wake-up of the blocked caller inside `with self.cv`:
either the `wait_for` predicate is still false (caller stays blocked), or
a `ConnectionError` is raised, or the response is returned. -/
inductive WakeResult where
  | stillWaiting
  | failed (msg : String) (st : DataClient)
  | returned (resp : DataResponse) (st : DataClient)

/-- Result of `_async_send`: the emitted events, the raised
`ConnectionError` message if any, and the post state. -/
structure AsyncResult where
  events : List SendEvent
  raised : Option String
  st : DataClient

/-- Result of (a prefix of) the read loop: emitted events and post state. -/
structure ReadResult where
  events : List REvent
  st : DataClient

/-- The `ConnectionError` message raised when a send is attempted while
`_in_shutdown` is already set (identical in both send paths). -/
def connTermMsg : String :=
  "Request can\x27t be sent because the data channel is " ++
  "terminated. This is likely because the data channel " ++
  "disconnected at some point before this request was " ++
  "prepared. Ray Client has been disconnected."

/-- Model of the f-string interpolation `f"...{req}..."`: the textual
rendering of a request. -/
def reqToString (req : DataRequest) : String :=
  "req_id: " ++ toString req.req_id ++ " payload: " ++ req.payload

/-- The text of the mid-flight `ConnectionError` before the interpolated
request. -/
def midFlightPre : String :=
  "Sending request failed because the data channel " ++
  "terminated. This is usually due to an error " ++
  "in handling the most recent request: "

/-- The text of the mid-flight `ConnectionError` after the interpolated
request. -/
def midFlightPost : String :=
  ". Ray Client " ++ "has been disconnected."

/-- The `ConnectionError` message raised when shutdown hit a dispatched
blocking request before its response arrived; embeds the request text. -/
def midFlightMsg (req : DataRequest) : String :=
  midFlightPre ++ (reqToString req ++ midFlightPost)

/-- `DataClient._blocking_send`, dispatch phase: the pre-shutdown check,
ID allocation, stamping `req.req_id`, and the queue push. -/
def DataClient.blocking_send_dispatch (dc : DataClient) (req : DataRequest) :
    DispatchResult :=
  if dc.in_shutdown then
    .failed connTermMsg { dc with disconnect_called := true }
  else
    let p := dc.next_id
    let stamped : DataRequest := { req with req_id := p.1 }
    .sent p.1 { p.2 with request_queue := p.2.request_queue ++ [some stamped] }

/-- `DataClient._blocking_send`, wake phase: one evaluation of the
`cv.wait_for` predicate and, when it holds, of the body after the wait.
`dc` is the shared state at wake-up time (mutated concurrently by the
read loop); `rid` is the correlation ID stamped at dispatch. -/
def DataClient.blocking_send_wake (dc : DataClient) (rid : Nat)
    (req : DataRequest) : WakeResult :=
  if dc.in_shutdown then
    .failed (midFlightMsg req) { dc with disconnect_called := true }
  else
    match alookup rid dc.ready_data with
    | some data =>
        .returned data { dc with ready_data := aerase rid dc.ready_data }
    | none => .stillWaiting

/-- `DataClient._async_send`: pre-shutdown check, ID allocation, stamping,
optional callback registration, queue push.  The event list records the
order of the observable steps. -/
def DataClient.async_send (dc : DataClient) (req : DataRequest)
    (callback : Option Callback) : AsyncResult :=
  if dc.in_shutdown then
    { events := [.callDisconnect, .raiseConn connTermMsg],
      raised := some connTermMsg,
      st := { dc with disconnect_called := true } }
  else
    let p := dc.next_id
    let stamped : DataRequest := { req with req_id := p.1 }
    match callback with
    | some cb =>
        { events := [.registerCallback p.1, .enqueueRequest p.1],
          raised := none,
          st := { p.2 with
                    asyncio_waiting_data :=
                      ainsert p.1 cb p.2.asyncio_waiting_data,
                    request_queue := p.2.request_queue ++ [some stamped] } }
    | none =>
        { events := [.enqueueRequest p.1],
          raised := none,
          st := { p.2 with request_queue := p.2.request_queue ++ [some stamped] } }

/-- One iteration of the `for response in resp_stream` body of
`_data_main`. -/
def DataClient.process_response (dc : DataClient) (response : DataResponse) :
    ReadResult :=
  if response.req_id == 0 then
    { events := [.logUnawaited response.req_id], st := dc }
  else
    match alookup response.req_id dc.asyncio_waiting_data with
    | some callback =>
        let dc1 :=
          { dc with asyncio_waiting_data :=
              aerase response.req_id dc.asyncio_waiting_data }
        match callback response with
        | .ok _ => { events := [.callbackInvoked response.req_id], st := dc1 }
        | .error m =>
            { events := [.callbackInvoked response.req_id,
                         .callbackRaised response.req_id m],
              st := dc1 }
    | none =>
        { events := [.readyInserted response.req_id, .notifyAll],
          st := { dc with
                    ready_data := ainsert response.req_id response dc.ready_data } }

/-- The whole `for` loop of `_data_main` over a finite inbound sequence. -/
def DataClient.process_stream (dc : DataClient) (responses : List DataResponse) :
    ReadResult :=
  match responses with
  | [] => { events := [], st := dc }
  | r :: rs =>
      let h := dc.process_response r
      let t := h.st.process_stream rs
      { events := h.events ++ t.events, st := t.st }

/-- `DataClient._data_main`: run the read loop over the inbound sequence;
if the stream ended with a `grpc.RpcError`, latch `_in_shutdown` under the
condition variable, wake all waiters, and log according to the status
code; if the iterator was simply exhausted, return as-is. -/
def DataClient.data_main (dc : DataClient) (responses : List DataResponse)
    (ending : StreamEnd) : ReadResult :=
  let r := dc.process_stream responses
  match ending with
  | .exhausted => r
  | .rpcError code =>
      let logEv :=
        match code with
        | .cancelled => REvent.logInfo "Cancelling data channel"
        | .unavailable => REvent.logInfo "Server disconnected from data channel"
        | .resourceExhausted =>
            REvent.logInfo "Server disconnected from data channel"
        | .other =>
            REvent.logException "Got Error from data channel -- shutting down:"
      { events := r.events ++ [REvent.setShutdown, REvent.notifyAll, logEv],
        st := { r.st with in_shutdown := true } }

/-- `DataClient.close`: set the keepalive stop event, push the `None`
close sentinel, join both threads.  (The `is not None` guards in the
source are always true: both fields are assigned in `__init__` and never
cleared.) -/
def DataClient.close (dc : DataClient) : DataClient :=
  { dc with
      stop_keepalive := true,
      request_queue := dc.request_queue ++ [none],
      data_thread_joined := true,
      keepalive_thread_joined := true }

/-- The state right after `__init__` (fresh counter, empty tables). -/
def dcInit : DataClient :=
  { request_queue := []
    ready_data := []
    asyncio_waiting_data := []
    req_id := 0
    in_shutdown := false
    stop_keepalive := false
    client_id := "client-0"
    disconnect_called := false
    data_thread_joined := false
    keepalive_thread_joined := false }

/-- State of the client after `n` further calls to `_next_id`. -/
def clientAfterCalls (dc : DataClient) : Nat → DataClient
  | 0 => dc
  | n + 1 => ((clientAfterCalls dc n).next_id).2

/-- The value returned by the `n`-th call to `_next_id` (`n ≥ 1`). -/
def nthId (dc : DataClient) (n : Nat) : Nat :=
  ((clientAfterCalls dc (n - 1)).next_id).1

/-! ### Association-list (dict) helper lemmas -/

theorem alookup_aerase {α : Type} (k : Nat) (l : List (Nat × α)) :
    alookup k (aerase k l) = none := by
  induction l with
  | nil => rfl
  | cons p t ih =>
      by_cases h : p.1 = k
      · simpa [aerase, List.filter_cons, h] using ih
      · simpa [aerase, alookup, List.filter_cons, List.find?, h] using ih

theorem alookup_ainsert_self {α : Type} (k : Nat) (v : α) (l : List (Nat × α)) :
    alookup k (ainsert k v l) = some v := by
  simp [ainsert, alookup, List.find?]

/-! ### C8 / C10 groundwork: the ID allocator -/

theorem next_id_fst (dc : DataClient) :
    (dc.next_id).1 = if dc.req_id + 1 > INT32_MAX then 1 else dc.req_id + 1 := rfl

theorem next_id_req_id (dc : DataClient) :
    ((dc.next_id).2).req_id = (dc.next_id).1 := rfl

theorem INT32_MAX_pos : 0 < INT32_MAX := by decide

/-- C8: `_next_id` never returns 0, always lands in `1..INT32_MAX`, and
from the counter value `INT32_MAX` the next call returns 1 (wraparound);
the operation is total (no error path). -/
theorem next_id_range (dc : DataClient) :
    (dc.next_id).1 ≠ 0 ∧ 1 ≤ (dc.next_id).1 ∧ (dc.next_id).1 ≤ INT32_MAX ∧
      (dc.req_id = INT32_MAX → (dc.next_id).1 = 1) := by
  have hM : 0 < INT32_MAX := INT32_MAX_pos
  rw [next_id_fst]
  split
  · refine ⟨by omega, by omega, by omega, fun _ => rfl⟩
  · rename_i hle
    refine ⟨by omega, by omega, by omega, fun hmax => ?_⟩
    omega

/-- Witness for C8 at the wrap point: the allocator sitting at
`INT32_MAX` returns 1 on the next call, and never 0. -/
theorem next_id_range_witness :
    ({ dcInit with req_id := INT32_MAX } : DataClient).next_id.1 ≠ 0 ∧
      ({ dcInit with req_id := INT32_MAX } : DataClient).next_id.1 = 1 := by
  have h := next_id_range { dcInit with req_id := INT32_MAX }
  exact ⟨h.1, h.2.2.2 rfl⟩

/-- C9: `close()` sets the keepalive stop event, appends the `None`
sentinel to the request queue, joins both threads, and changes nothing
else: `_in_shutdown`, the Ready Table, the Callback Table and the ID
counter are untouched. -/
theorem close_spec (dc : DataClient) :
    (dc.close).stop_keepalive = true ∧
      (dc.close).request_queue = dc.request_queue ++ [none] ∧
      (dc.close).data_thread_joined = true ∧
      (dc.close).keepalive_thread_joined = true ∧
      (dc.close).in_shutdown = dc.in_shutdown ∧
      (dc.close).ready_data = dc.ready_data ∧
      (dc.close).asyncio_waiting_data = dc.asyncio_waiting_data ∧
      (dc.close).req_id = dc.req_id :=
  ⟨rfl, rfl, rfl, rfl, rfl, rfl, rfl, rfl⟩

/-! ### C10: the deterministic ID sequence from a fresh client -/

theorem clientAfterCalls_req_id_succ (dc : DataClient) (m : Nat) :
    (clientAfterCalls dc (m + 1)).req_id =
      if (clientAfterCalls dc m).req_id + 1 > INT32_MAX then 1
      else (clientAfterCalls dc m).req_id + 1 := rfl

theorem clientAfterCalls_req_id (dc : DataClient) (n : Nat) (h : dc.req_id = 0)
    (hn : 1 ≤ n) :
    (clientAfterCalls dc n).req_id = (n - 1) % INT32_MAX + 1 := by
  induction n with
  | zero => omega
  | succ m ih =>
      rcases Nat.eq_zero_or_pos m with hm | hm
      · subst hm
        rw [clientAfterCalls_req_id_succ]
        simp only [clientAfterCalls, h]
        decide
      · have hmod := ih hm
        have hk : (m - 1) % INT32_MAX < INT32_MAX := Nat.mod_lt _ INT32_MAX_pos
        have hm1 : m - 1 + 1 = m := by omega
        have hstep : m % INT32_MAX = ((m - 1) % INT32_MAX + 1) % INT32_MAX := by
          conv_lhs => rw [← hm1]
          rw [Nat.add_mod, Nat.mod_eq_of_lt (show (1 : Nat) < INT32_MAX by decide)]
        rw [clientAfterCalls_req_id_succ, hmod]
        have hgoal : m + 1 - 1 = m := by omega
        rw [hgoal, hstep]
        rw [show INT32_MAX = 2147483647 from rfl] at hk ⊢
        split <;> omega

theorem nthId_eq_counter (dc : DataClient) (n : Nat) (hn : 1 ≤ n) :
    nthId dc n = (clientAfterCalls dc n).req_id := by
  have h : n - 1 + 1 = n := by omega
  conv_rhs => rw [← h]
  rfl

/-- C10: from a freshly constructed client (counter 0), the `n`-th call
to `_next_id` returns `((n − 1) mod (2^31 − 1)) + 1`, and IDs are
pairwise distinct within any window of fewer than `2^31 − 1` consecutive
allocations. -/
theorem nthId_formula (dc : DataClient) (h : dc.req_id = 0) :
    (∀ n, 1 ≤ n → nthId dc n = (n - 1) % INT32_MAX + 1) ∧
      (∀ m n, 1 ≤ m → m < n → n - m < INT32_MAX →
        nthId dc m ≠ nthId dc n) := by
  have hf : ∀ n, 1 ≤ n → nthId dc n = (n - 1) % INT32_MAX + 1 := by
    intro n hn
    rw [nthId_eq_counter dc n hn, clientAfterCalls_req_id dc n h hn]
  refine ⟨hf, ?_⟩
  intro m n hm hmn hwin heq
  rw [hf m hm, hf n (by omega)] at heq
  have hmod : (m - 1) % INT32_MAX = (n - 1) % INT32_MAX := by omega
  have hdvd : INT32_MAX ∣ (n - 1) - (m - 1) :=
    (Nat.modEq_iff_dvd' (by omega)).mp hmod
  have hsub : (n - 1) - (m - 1) = n - m := by omega
  rw [hsub] at hdvd
  have := Nat.le_of_dvd (by omega) hdvd
  omega

/-- Witness for C10: concretely, the third ID minted by a fresh client is
3, and the first two IDs differ. -/
theorem nthId_formula_witness :
    nthId dcInit 3 = 3 ∧ nthId dcInit 1 ≠ nthId dcInit 2 := by
  have h := nthId_formula dcInit rfl
  constructor
  · rw [h.1 3 (by omega)]
    decide
  · exact h.2 1 2 (by omega) (by omega) (by decide)

/-! ### C3: read-loop termination -/

/-- C3 (amended to `grpc.RpcError` terminations): whenever `_data_main`
terminates because the transport raised a `grpc.RpcError`, for each of
the three classifications (cancelled, unavailable/resource-exhausted,
other), `_in_shutdown` is set to true and all waiters are broadcast-woken
right after, and the net effect on the state is identical for every
status code. -/
theorem data_main_rpc_error_shutdown (dc : DataClient)
    (rs : List DataResponse) (c : StatusCode) :
    (dc.data_main rs (.rpcError c)).st.in_shutdown = true ∧
      (dc.data_main rs (.rpcError c)).st =
        { (dc.process_stream rs).st with in_shutdown := true } ∧
      (∀ c2, (dc.data_main rs (.rpcError c)).st =
        (dc.data_main rs (.rpcError c2)).st) ∧
      (∃ ev, (dc.data_main rs (.rpcError c)).events =
        (dc.process_stream rs).events ++
          [REvent.setShutdown, REvent.notifyAll, ev]) := by
  refine ⟨rfl, rfl, fun c2 => rfl, ?_⟩
  cases c <;> exact ⟨_, rfl⟩

/-- Counterexample to C3 as stated: the read loop also terminates when
the inbound iterator is exhausted without raising (the `for` loop ends
and the `except grpc.RpcError` handler never runs); in that case
`_in_shutdown` is NOT set. -/
theorem data_main_exhausted_no_shutdown :
    ¬ ((dcInit.data_main [] .exhausted).st.in_shutdown = true) := by
  decide

/-! ### C2: sends attempted after shutdown -/

/-- C2: any `_blocking_send` or `_async_send` attempted while
`_in_shutdown` is already true raises `ConnectionError` immediately: no
correlation ID is allocated, nothing is pushed onto the request queue,
and the Ready and Callback Tables are unchanged (only the disconnect
side effect fires). -/
theorem send_after_shutdown (dc : DataClient) (req : DataRequest)
    (cb : Option Callback) (h : dc.in_shutdown = true) :
    dc.blocking_send_dispatch req =
        .failed connTermMsg { dc with disconnect_called := true } ∧
      (dc.async_send req cb).raised = some connTermMsg ∧
      (dc.async_send req cb).st = { dc with disconnect_called := true } ∧
      (dc.async_send req cb).st.req_id = dc.req_id ∧
      (dc.async_send req cb).st.request_queue = dc.request_queue ∧
      (dc.async_send req cb).st.ready_data = dc.ready_data ∧
      (dc.async_send req cb).st.asyncio_waiting_data = dc.asyncio_waiting_data := by
  simp [DataClient.blocking_send_dispatch, DataClient.async_send, h]

/-- The state right after the transport died and the read loop latched
shutdown: a client with `_in_shutdown = true`. -/
def dcShut : DataClient := { dcInit with in_shutdown := true }

/-- Witness for C2: on a concrete shut-down client, both send paths fail
with the terminated-channel error and no enqueue happens. -/
theorem send_after_shutdown_witness :
    dcShut.blocking_send_dispatch { req_id := 0, payload := "get" } =
        .failed connTermMsg { dcShut with disconnect_called := true } ∧
      (dcShut.async_send { req_id := 0, payload := "get" } none).raised =
        some connTermMsg ∧
      (dcShut.async_send { req_id := 0, payload := "get" } none).st.request_queue =
        dcShut.request_queue := by
  have h := send_after_shutdown dcShut { req_id := 0, payload := "get" } none rfl
  exact ⟨h.1, h.2.1, h.2.2.2.2.1⟩

/-! ### C1: a normally returning blocking call -/

/-- C1: a blocking call that returns normally returns exactly the Ready
Table entry stored under the correlation ID stamped onto its request at
dispatch, and that entry is removed before returning, so the same
response can never be delivered to a second blocking caller (a second
wake-up on the same ID finds nothing and keeps waiting). -/
theorem blocking_send_returns_ready_entry (dc dc2 : DataClient)
    (req : DataRequest) (rid : Nat) (dc1 : DataClient)
    (resp : DataResponse) (dc3 : DataClient)
    (hd : dc.blocking_send_dispatch req = .sent rid dc1)
    (hw : dc2.blocking_send_wake rid req = .returned resp dc3) :
    dc1.request_queue = dc.request_queue ++ [some { req with req_id := rid }] ∧
      alookup rid dc2.ready_data = some resp ∧
      dc3.ready_data = aerase rid dc2.ready_data ∧
      alookup rid dc3.ready_data = none ∧
      dc3.blocking_send_wake rid req = .stillWaiting := by
  simp only [DataClient.blocking_send_dispatch] at hd
  simp only [DataClient.blocking_send_wake] at hw
  split at hd
  · exact absurd hd (by simp)
  · split at hw
    · exact absurd hw (by simp)
    · rename_i hs2
      split at hw
      · rename_i data heq
        injection hd with h1 h2
        injection hw with h3 h4
        subst h1
        subst h2
        subst h3
        subst h4
        refine ⟨rfl, heq, rfl, alookup_aerase _ _, ?_⟩
        simp only [DataClient.blocking_send_wake, alookup_aerase]
        simp only [Bool.not_eq_true] at hs2
        simp [hs2]
      · exact absurd hw (by simp)

/-! ### Concrete values shared by the witnesses -/

/-- A sample unstamped request. -/
def reqW : DataRequest := { req_id := 0, payload := "init" }

/-- A sample response correlated to ID 1. -/
def respW : DataResponse := { req_id := 1, payload := "init-resp" }

/-- A callback that returns normally. -/
def cbOk : Callback := fun _ => .ok ()

/-- A callback that raises. -/
def cbBoom : Callback := fun _ => .error "boom"

/-- The fresh client right after dispatching `reqW` under ID 1. -/
def dc1W : DataClient :=
  { dcInit with req_id := 1, request_queue := [some { reqW with req_id := 1 }] }

/-- The client state once the read loop has stored `respW` under ID 1. -/
def dc2W : DataClient := { dcInit with ready_data := [(1, respW)] }

/-- The client state after the blocking caller consumed the entry. -/
def dc3W : DataClient := { dcInit with ready_data := aerase 1 [(1, respW)] }

/-- Witness for C1: run a concrete blocking call end to end.  The fresh
client dispatches `reqW` under ID 1; after the read loop stores the
response, the wake phase returns it and empties the Ready Table entry. -/
theorem blocking_send_returns_ready_entry_witness :
    dc1W.request_queue = dcInit.request_queue ++ [some { reqW with req_id := 1 }] ∧
      alookup 1 dc2W.ready_data = some respW ∧
      dc3W.ready_data = aerase 1 dc2W.ready_data ∧
      alookup 1 dc3W.ready_data = none ∧
      dc3W.blocking_send_wake 1 reqW = .stillWaiting :=
  blocking_send_returns_ready_entry dcInit dc2W reqW 1 dc1W respW dc3W rfl rfl

/-! ### C5: mid-flight shutdown failure of a blocking call -/

/-- C5: when a dispatched blocking call wakes with `_in_shutdown` latched
before its response arrived, it raises the `ConnectionError` whose
message embeds the text of the specific in-flight request, and the
session-wide disconnect has been triggered by the time it raises. -/
theorem blocking_send_mid_flight_failure (dc2 : DataClient) (rid : Nat)
    (req : DataRequest) (msg : String) (dc3 : DataClient)
    (hw : dc2.blocking_send_wake rid req = .failed msg dc3) :
    dc2.in_shutdown = true ∧
      dc3.disconnect_called = true ∧
      msg = midFlightMsg req ∧
      (∃ pre post, msg = pre ++ (reqToString req ++ post)) := by
  simp only [DataClient.blocking_send_wake] at hw
  split at hw
  · rename_i hs
    injection hw with h1 h2
    subst h1
    subst h2
    exact ⟨hs, rfl, rfl, ⟨midFlightPre, midFlightPost, rfl⟩⟩
  · split at hw <;> exact absurd hw (by simp)

/-- Witness for C5: a concrete shut-down client fails a woken blocking
call with the message embedding the request. -/
theorem blocking_send_mid_flight_failure_witness :
    dcShut.in_shutdown = true ∧
      ({ dcShut with disconnect_called := true } : DataClient).disconnect_called =
        true ∧
      midFlightMsg reqW = midFlightMsg reqW ∧
      (∃ pre post, midFlightMsg reqW = pre ++ (reqToString reqW ++ post)) :=
  blocking_send_mid_flight_failure dcShut 5 reqW (midFlightMsg reqW)
    { dcShut with disconnect_called := true } rfl

/-! ### C6: callback registration happens before dispatch -/

/-- C6: `_async_send` given a callback registers it in the Callback Table
strictly before the stamped request is pushed onto the dispatch queue,
and the resulting state holds both the registered entry and the enqueued
stamped request. -/
theorem async_send_registers_before_enqueue (dc : DataClient)
    (req : DataRequest) (cb : Callback) (h : dc.in_shutdown = false) :
    ∃ (i j rid : Nat),
      i < j ∧
        ((dc.async_send req (some cb)).events)[i]? =
          some (SendEvent.registerCallback rid) ∧
        ((dc.async_send req (some cb)).events)[j]? =
          some (SendEvent.enqueueRequest rid) ∧
        alookup rid (dc.async_send req (some cb)).st.asyncio_waiting_data =
          some cb ∧
        (dc.async_send req (some cb)).st.request_queue =
          dc.request_queue ++ [some { req with req_id := rid }] := by
  refine ⟨0, 1, (dc.next_id).1, Nat.zero_lt_one, ?_, ?_, ?_, ?_⟩ <;>
    simp [DataClient.async_send, DataClient.next_id, h, alookup_ainsert_self]

/-- Witness for C6: concrete registration-before-enqueue on a fresh
client. -/
theorem async_send_registers_before_enqueue_witness :
    ∃ (i j rid : Nat),
      i < j ∧
        ((dcInit.async_send reqW (some cbOk)).events)[i]? =
          some (SendEvent.registerCallback rid) ∧
        ((dcInit.async_send reqW (some cbOk)).events)[j]? =
          some (SendEvent.enqueueRequest rid) ∧
        alookup rid (dcInit.async_send reqW (some cbOk)).st.asyncio_waiting_data =
          some cbOk ∧
        (dcInit.async_send reqW (some cbOk)).st.request_queue =
          dcInit.request_queue ++ [some { reqW with req_id := rid }] :=
  async_send_registers_before_enqueue dcInit reqW cbOk rfl

/-! ### C4: per-response routing trichotomy in the read loop -/

/-- C4: each inbound response triggers exactly one of three disjoint
actions keyed on its correlation ID: ID 0 is logged and discarded with
nothing modified and no callback run; an ID registered in the Callback
Table has its entry removed (so the callback fires at most once) and the
callback invoked, with the Ready Table untouched; any other nonzero ID is
inserted into the Ready Table and all blocked waiters are notified. -/
theorem process_response_trichotomy (dc : DataClient) (r : DataResponse) :
    (r.req_id = 0 →
      dc.process_response r = { events := [.logUnawaited 0], st := dc }) ∧
      (∀ cb, r.req_id ≠ 0 →
        alookup r.req_id dc.asyncio_waiting_data = some cb →
        (dc.process_response r).st.asyncio_waiting_data =
            aerase r.req_id dc.asyncio_waiting_data ∧
          alookup r.req_id (dc.process_response r).st.asyncio_waiting_data =
            none ∧
          (dc.process_response r).st.ready_data = dc.ready_data ∧
          REvent.callbackInvoked r.req_id ∈ (dc.process_response r).events) ∧
      (r.req_id ≠ 0 → alookup r.req_id dc.asyncio_waiting_data = none →
        dc.process_response r =
          { events := [.readyInserted r.req_id, .notifyAll],
            st := { dc with
                      ready_data := ainsert r.req_id r dc.ready_data } }) := by
  refine ⟨?_, ?_, ?_⟩
  · intro h0
    simp [DataClient.process_response, h0]
  · intro cb hne hcb
    have hb : (r.req_id == 0) = false := by simpa using hne
    cases hcase : cb r with
    | ok u =>
        have hres : dc.process_response r =
            { events := [.callbackInvoked r.req_id],
              st := { dc with asyncio_waiting_data :=
                        aerase r.req_id dc.asyncio_waiting_data } } := by
          simp [DataClient.process_response, hb, hcb, hcase]
        rw [hres]
        exact ⟨rfl, alookup_aerase _ _, rfl, by simp⟩
    | error m =>
        have hres : dc.process_response r =
            { events := [.callbackInvoked r.req_id,
                         .callbackRaised r.req_id m],
              st := { dc with asyncio_waiting_data :=
                        aerase r.req_id dc.asyncio_waiting_data } } := by
          simp [DataClient.process_response, hb, hcb, hcase]
        rw [hres]
        exact ⟨rfl, alookup_aerase _ _, rfl, by simp⟩
  · intro hne hnone
    have hb : (r.req_id == 0) = false := by simpa using hne
    simp [DataClient.process_response, hb, hnone]

/-- The client with one registered callback under ID 7. -/
def dc4W : DataClient := { dcInit with asyncio_waiting_data := [(7, cbOk)] }

/-- A response correlated to ID 7. -/
def resp7W : DataResponse := { req_id := 7, payload := "async-resp" }

/-- Witness for C4 (callback branch): a concrete response hitting a
registered callback consumes the entry, leaves the Ready Table alone and
invokes the callback. -/
theorem process_response_trichotomy_witness :
    (dc4W.process_response resp7W).st.asyncio_waiting_data =
        aerase 7 dc4W.asyncio_waiting_data ∧
      alookup 7 (dc4W.process_response resp7W).st.asyncio_waiting_data = none ∧
      (dc4W.process_response resp7W).st.ready_data = dc4W.ready_data ∧
      REvent.callbackInvoked 7 ∈ (dc4W.process_response resp7W).events :=
  (process_response_trichotomy dc4W resp7W).2.1 cbOk (by decide) rfl

/-! ### C7: callback faults are contained by the read loop -/

/-- C7: a registered callback that raises is caught and logged inside
the loop and does not propagate: the loop goes on, processing every
subsequent inbound response from the state in which only that callback
entry has been consumed. -/
theorem process_stream_callback_fault_isolated (dc : DataClient)
    (r : DataResponse) (rs : List DataResponse) (cb : Callback) (m : String)
    (hne : r.req_id ≠ 0)
    (hcb : alookup r.req_id dc.asyncio_waiting_data = some cb)
    (herr : cb r = .error m) :
    (dc.process_stream (r :: rs)).st =
        (({ dc with asyncio_waiting_data :=
              aerase r.req_id dc.asyncio_waiting_data } : DataClient).process_stream
            rs).st ∧
      (dc.process_stream (r :: rs)).events =
        .callbackInvoked r.req_id :: .callbackRaised r.req_id m ::
          (({ dc with asyncio_waiting_data :=
                aerase r.req_id dc.asyncio_waiting_data } : DataClient).process_stream
              rs).events := by
  have hb : (r.req_id == 0) = false := by simpa using hne
  have hres : dc.process_response r =
      { events := [.callbackInvoked r.req_id, .callbackRaised r.req_id m],
        st := { dc with asyncio_waiting_data :=
                  aerase r.req_id dc.asyncio_waiting_data } } := by
    simp [DataClient.process_response, hb, hcb, herr]
  constructor
  · simp [DataClient.process_stream, hres]
  · simp [DataClient.process_stream, hres]

/-- The client with a raising callback under ID 3 and a healthy one
under ID 4. -/
def dc7W : DataClient :=
  { dcInit with asyncio_waiting_data := [(3, cbBoom), (4, cbOk)] }

/-- A response correlated to ID 3 (hits the raising callback). -/
def resp3W : DataResponse := { req_id := 3, payload := "boom-resp" }

/-- A response correlated to ID 4 (processed after the fault). -/
def resp4W : DataResponse := { req_id := 4, payload := "ok-resp" }

/-- Witness for C7: concretely, the raising callback under ID 3 is
consumed and logged, and the response for ID 4 is still processed. -/
theorem process_stream_callback_fault_isolated_witness :
    (dc7W.process_stream [resp3W, resp4W]).st =
        (({ dc7W with
              asyncio_waiting_data :=
                aerase 3 dc7W.asyncio_waiting_data } : DataClient).process_stream
            [resp4W]).st ∧
      (dc7W.process_stream [resp3W, resp4W]).events =
        .callbackInvoked 3 :: .callbackRaised 3 "boom" ::
          (({ dc7W with
                asyncio_waiting_data :=
                  aerase 3 dc7W.asyncio_waiting_data } : DataClient).process_stream
              [resp4W]).events :=
  process_stream_callback_fault_isolated dc7W resp3W [resp4W] cbBoom "boom"
    (by decide) rfl rfl

end RayDataClient
